import Mathlib

/-!
# Verification of the DCF valuation engine (`dcf_analysis_main.py`)

A shallow embedding, over `ℚ`, of the computational core of
`dcf_analysis` and its helper `get_financial_value`:

* the line-item resolver (`get_financial_value`, source lines 49-62);
* the FCFF derivation `cfo - capex` (line 73);
* the per-year projection, discounting, terminal value and NPV
  (lines 90-114);
* the final output table with monetary figures scaled to millions
  (lines 117-122).

Python operations that can raise (`/` by zero raises `ZeroDivisionError`,
list indexing and `list[-1]` raise `IndexError`) are embedded as
`Except String` computations; everything else is pure.
-/

/-- Python division: raises `ZeroDivisionError` on a zero divisor. -/
def pydiv (a b : ℚ) : Except String ℚ :=
  if b = 0 then .error "ZeroDivisionError" else .ok (a / b)

/-- Python list indexing `xs[j]` for `j ≥ 0`: raises `IndexError` out of bounds. -/
def pyget (xs : List ℚ) (j : ℕ) : Except String ℚ :=
  match xs[j]? with
  | some x => .ok x
  | none => .error "IndexError"

/-- Python `xs[-1]`: the last element, `IndexError` on an empty list. -/
def pylast (xs : List ℚ) : Except String ℚ :=
  match xs.getLast? with
  | some x => .ok x
  | none => .error "IndexError"

/-- Source line 95:
`projected_fcffs = [current_fcff * (1 + terminal_growth_rate) ** j for j in range(1, projection_years + 1)]`. -/
def project (fcff g : ℚ) (N : ℕ) : List ℚ :=
  (List.range N).map (fun j => fcff * (1 + g) ^ (j + 1))

/-- Source line 99:
`discount_factors = [(1 + discount_rate) ** j for j in range(1, projection_years + 1)]`. -/
def discount_factors (r : ℚ) (N : ℕ) : List ℚ :=
  (List.range N).map (fun j => (1 + r) ^ (j + 1))

/-- The comprehension of source line 100, unrolled with its running index:
for each element `p` of `projected` at position `j`, look up
`discount_factors[j]` and divide. -/
def discountLoop (factors : List ℚ) : ℕ → List ℚ → Except String (List ℚ)
  | _, [] => .ok []
  | j, p :: ps =>
    match pyget factors j with
    | .error e => .error e
    | .ok f =>
      match pydiv p f with
      | .error e => .error e
      | .ok d =>
        match discountLoop factors (j + 1) ps with
        | .error e => .error e
        | .ok rest => .ok (d :: rest)

/-- Source line 100:
`discounted_fcffs = [fcff / discount_factors[j] for j, fcff in enumerate(projected_fcffs)]`. -/
def discounted_fcffs (projected factors : List ℚ) : Except String (List ℚ) :=
  discountLoop factors 0 projected

/-- One iteration of the per-year loop, source lines 90-114: project,
discount, terminal value (line 104), its present value (line 105) and the
NPV (line 109).  Returns `(terminal_value_pv, net_present_value)`. -/
def valuateYear (fcff r g : ℚ) (N : ℕ) : Except String (ℚ × ℚ) :=
  let projected := project fcff g N
  let factors := discount_factors r N
  match discounted_fcffs projected factors with
  | .error e => .error e
  | .ok discounted =>
    match pylast projected with
    | .error e => .error e
    | .ok lastProj =>
      match pydiv (lastProj * (1 + g)) (r - g) with
      | .error e => .error e
      | .ok tv =>
        match pylast factors with
        | .error e => .error e
        | .ok lastFactor =>
          match pydiv tv lastFactor with
          | .error e => .error e
          | .ok tvpv => .ok (tvpv, discounted.sum + tvpv)

/-- One row of the output table, source lines 117-122: the fiscal year
unscaled, the monetary figures divided by 1,000,000. -/
structure ValuationRow where
  year : Int
  fcff_millions : ℚ
  terminal_value_millions : ℚ
  npv_millions : ℚ
deriving DecidableEq, Repr

/-- Builds the output-table row for one historical year (lines 117-122). -/
def mkRow (rec : Int × ℚ) (v : ℚ × ℚ) : ValuationRow :=
  { year := rec.1
    fcff_millions := rec.2 / 1000000
    terminal_value_millions := v.1 / 1000000
    npv_millions := v.2 / 1000000 }

/-- The per-year loop of source lines 90-114 over the list of
`(fiscal_year, FCFF)` records, followed by the table construction of
lines 117-122.  A raised exception aborts the loop, so no output table is
produced (the file is only written after the loop completes). -/
def runYears (r g : ℚ) (N : ℕ) : List (Int × ℚ) → Except String (List ValuationRow)
  | [] => .ok []
  | rec :: rest =>
    match valuateYear rec.2 r g N with
    | .error e => .error e
    | .ok v =>
      match runYears r g N rest with
      | .error e => .error e
      | .ok rows => .ok (mkRow rec v :: rows)

/-- The valuation core of `dcf_analysis` (source lines 90-122), taking the
already-derived historical `(fiscal_year, FCFF)` records. -/
def dcf_analysis (records : List (Int × ℚ)) (r g : ℚ) (N : ℕ) :
    Except String (List ValuationRow) :=
  runYears r g N records

/-! ## The line-item resolver (source lines 43-73) -/

/-- The merged per-period table: the list of fiscal years (one per period,
in row order) and the named columns, each holding one optional value per
period (`none` models a missing/NaN cell). -/
structure Dataset where
  years : List Int
  cols : List (String × List (Option ℚ))
deriving DecidableEq, Repr

/-- `label in df.columns` / `df[label]`: the first column under a name, if present. -/
def lookupIn : List (String × List (Option ℚ)) → String → Option (List (Option ℚ))
  | [], _ => none
  | c :: cs, label => if c.1 = label then some c.2 else lookupIn cs label

/-- `label in df.columns` / `df[label]` on the dataset's columns. -/
def lookupCol (ds : Dataset) (label : String) : Option (List (Option ℚ)) :=
  lookupIn ds.cols label

/-- `df[label].abs().sum()`: pandas sums absolute values, skipping NaN. -/
def absSum (vals : List (Option ℚ)) : ℚ :=
  (vals.map (fun v => |v.getD 0|)).sum

/-- `df[label].fillna(0)`: missing cells become 0. -/
def fillna (vals : List (Option ℚ)) : List ℚ :=
  vals.map (fun v => v.getD 0)

/-- One iteration of the candidate-label loop of source lines 53-59: a
label present in the dataset replaces the running `(max_abs_value,
found_label)` pair exactly when `df[label].abs().sum()` is strictly
greater than `max_abs_value.sum()`; the stored series becomes
`df[label].fillna(0)` (the raw values, not their absolute values). -/
def resolveStep (ds : Dataset) (acc : List ℚ × Option String) (label : String) :
    List ℚ × Option String :=
  match lookupCol ds label with
  | none => acc
  | some vals =>
    if absSum vals > acc.1.sum then (fillna vals, some label) else acc

/-- Source lines 49-62 (`get_financial_value`): starting from the all-zero
series (`pd.Series([0] * len(df))`) and no label, scan the candidate
labels in order with `resolveStep`.  Returns the final series together
with `found_label`. -/
def get_financial_value (ds : Dataset) (possible_labels : List String) :
    List ℚ × Option String :=
  possible_labels.foldl (resolveStep ds) (List.replicate ds.years.length 0, none)

/-- Source lines 43-46: the configured candidate labels for `cfo`. -/
def label_variations_cfo : List String :=
  ["NetCashProvidedByUsedInOperatingActivities"]

/-- Source lines 43-46: the configured candidate labels for `capex`. -/
def label_variations_capex : List String :=
  ["PaymentsToAcquirePropertyPlantAndEquipment"]

/-- Source line 73: `apple_df['FCFF'] = cfo - capex`, elementwise over the
resolved series. -/
def fcff_series (ds : Dataset) : List ℚ :=
  List.zipWith (fun a b => a - b)
    (get_financial_value ds label_variations_cfo).1
    (get_financial_value ds label_variations_capex).1

/-! ## Closed-form values of one year's valuation (proof-side helpers) -/

/-- Closed form of the terminal value's present value produced by
source lines 104-105. -/
def tvPV (fcff r g : ℚ) (N : ℕ) : ℚ :=
  fcff * (1 + g) ^ N * (1 + g) / (r - g) / (1 + r) ^ N

/-- Closed form of the NPV produced by source line 109. -/
def npvVal (fcff r g : ℚ) (N : ℕ) : ℚ :=
  ((List.range N).map (fun j => fcff * (1 + g) ^ (j + 1) / (1 + r) ^ (j + 1))).sum
    + tvPV fcff r g N

/-! ## Basic lemmas about the embedded primitives -/

lemma pydiv_ok {a b : ℚ} (h : b ≠ 0) : pydiv a b = .ok (a / b) := by
  simp [pydiv, h]

lemma project_length (fcff g : ℚ) (N : ℕ) : (project fcff g N).length = N := by
  simp [project]

lemma discount_factors_length (r : ℚ) (N : ℕ) :
    (discount_factors r N).length = N := by
  simp [discount_factors]

lemma project_getLast (fcff g : ℚ) (N : ℕ) (hN : 1 ≤ N) :
    (project fcff g N).getLast? = some (fcff * (1 + g) ^ N) := by
  obtain ⟨M, rfl⟩ : ∃ M, N = M + 1 := ⟨N - 1, by omega⟩
  rw [project, List.range_succ, List.map_append]
  simp [List.getLast?_concat]

lemma discount_factors_getLast (r : ℚ) (N : ℕ) (hN : 1 ≤ N) :
    (discount_factors r N).getLast? = some ((1 + r) ^ N) := by
  obtain ⟨M, rfl⟩ : ∃ M, N = M + 1 := ⟨N - 1, by omega⟩
  rw [discount_factors, List.range_succ, List.map_append]
  simp [List.getLast?_concat]

lemma discountLoop_ok (fs : List ℚ) (hnz : ∀ y ∈ fs, y ≠ 0) :
    ∀ (ps : List ℚ) (k : ℕ), k + ps.length ≤ fs.length →
      discountLoop fs k ps = .ok (List.zipWith (fun a b => a / b) ps (fs.drop k)) := by
  intro ps
  induction ps with
  | nil => intro k hk; simp [discountLoop]
  | cons p ps ih =>
    intro k hk
    simp only [List.length_cons] at hk
    have hklt : k < fs.length := by omega
    have hy : fs[k] ≠ 0 := hnz _ (fs.getElem_mem hklt)
    have hdrop : fs.drop k = fs[k] :: fs.drop (k + 1) := List.drop_eq_getElem_cons hklt
    simp only [discountLoop, pyget, List.getElem?_eq_getElem hklt, pydiv_ok hy,
      ih (k + 1) (by omega), hdrop, List.zipWith_cons_cons]

lemma discounted_fcffs_ok (fcff g r : ℚ) (N : ℕ) (hr : (1 : ℚ) + r ≠ 0) :
    discounted_fcffs (project fcff g N) (discount_factors r N)
      = .ok ((List.range N).map fun j => fcff * (1 + g) ^ (j + 1) / (1 + r) ^ (j + 1)) := by
  have hnz : ∀ y ∈ discount_factors r N, y ≠ 0 := by
    intro y hy
    simp only [discount_factors, List.mem_map] at hy
    obtain ⟨j, _, rfl⟩ := hy
    exact pow_ne_zero _ hr
  have hlen : 0 + (project fcff g N).length ≤ (discount_factors r N).length := by
    simp [project, discount_factors]
  rw [discounted_fcffs, discountLoop_ok _ hnz _ 0 hlen, List.drop_zero, project,
    discount_factors, List.zipWith_map, List.zipWith_same]

lemma valuateYear_eq (fcff r g : ℚ) (N : ℕ)
    (hr : (1 : ℚ) + r ≠ 0) (hg : r ≠ g) (hN : 1 ≤ N) :
    valuateYear fcff r g N = .ok (tvPV fcff r g N, npvVal fcff r g N) := by
  have hrg : r - g ≠ 0 := sub_ne_zero.mpr hg
  have hfac : ((1 : ℚ) + r) ^ N ≠ 0 := pow_ne_zero _ hr
  simp only [valuateYear, discounted_fcffs_ok fcff g r N hr, pylast,
    project_getLast fcff g N hN, discount_factors_getLast r N hN,
    pydiv_ok hrg, pydiv_ok hfac]
  simp [tvPV, npvVal]

lemma runYears_eq (r g : ℚ) (N : ℕ)
    (hr : (1 : ℚ) + r ≠ 0) (hg : r ≠ g) (hN : 1 ≤ N) :
    ∀ records : List (Int × ℚ),
      runYears r g N records
        = .ok (records.map fun rec => mkRow rec (tvPV rec.2 r g N, npvVal rec.2 r g N)) := by
  intro records
  induction records with
  | nil => simp [runYears]
  | cons rec rest ih =>
    rw [runYears, valuateYear_eq rec.2 r g N hr hg hN, ih, List.map_cons]

lemma ne_zero_of_neg_one_lt {r : ℚ} (hr : -1 < r) : (1 : ℚ) + r ≠ 0 := by
  intro h
  have : r = -1 := by linarith
  simp [this] at hr

/-! ## Error-path lemmas: `r == g` hits an unchecked division by zero -/

lemma valuateYear_div_zero (fcff r : ℚ) (N : ℕ) (hN : 1 ≤ N) :
    valuateYear fcff r r N = .error "ZeroDivisionError" := by
  by_cases hr : (1 : ℚ) + r = 0
  · obtain ⟨M, rfl⟩ : ∃ M, N = M + 1 := ⟨N - 1, by omega⟩
    simp only [valuateYear, discounted_fcffs, project, discount_factors,
      List.range_succ_eq_map, List.map_cons, discountLoop, pyget,
      List.getElem?_cons_zero, pydiv, hr]
    norm_num
  · have hrg : r - r = 0 := sub_self r
    simp only [valuateYear, discounted_fcffs_ok fcff r r N hr, pylast,
      project_getLast fcff r N hN, pydiv, hrg, if_pos]

lemma runYears_div_zero (rec : Int × ℚ) (rest : List (Int × ℚ)) (r : ℚ) (N : ℕ)
    (hN : 1 ≤ N) :
    runYears r r N (rec :: rest) = .error "ZeroDivisionError" := by
  rw [runYears, valuateYear_div_zero rec.2 r N hN]

/-! ## Resolver lemmas -/

lemma lookupIn_mem {cols : List (String × List (Option ℚ))} {label : String}
    {vals : List (Option ℚ)} (h : lookupIn cols label = some vals) :
    ∃ c ∈ cols, c.2 = vals := by
  induction cols with
  | nil => simp [lookupIn] at h
  | cons c cs ih =>
    rw [lookupIn] at h
    by_cases hc : c.1 = label
    · rw [if_pos hc] at h
      exact ⟨c, List.mem_cons_self c cs, by injection h⟩
    · rw [if_neg hc] at h
      obtain ⟨d, hd, hv⟩ := ih h
      exact ⟨d, List.mem_cons_of_mem c hd, hv⟩

lemma resolveStep_length (ds : Dataset)
    (hwf : ∀ c ∈ ds.cols, c.2.length = ds.years.length)
    (acc : List ℚ × Option String) (label : String)
    (hacc : acc.1.length = ds.years.length) :
    (resolveStep ds acc label).1.length = ds.years.length := by
  cases hlk : lookupCol ds label with
  | none => simpa [resolveStep, hlk] using hacc
  | some vals =>
    obtain ⟨c, hc, hv⟩ := lookupIn_mem hlk
    by_cases hgt : absSum vals > acc.1.sum
    · simp only [resolveStep, hlk, if_pos hgt]
      simpa [fillna, hv] using hwf c hc
    · simp only [resolveStep, hlk, if_neg hgt]
      exact hacc

lemma foldl_resolveStep_length (ds : Dataset)
    (hwf : ∀ c ∈ ds.cols, c.2.length = ds.years.length) :
    ∀ (labels : List String) (acc : List ℚ × Option String),
      acc.1.length = ds.years.length →
      (labels.foldl (resolveStep ds) acc).1.length = ds.years.length := by
  intro labels
  induction labels with
  | nil => intro acc hacc; exact hacc
  | cons label rest ih =>
    intro acc hacc
    exact ih _ (resolveStep_length ds hwf acc label hacc)

lemma get_financial_value_length (ds : Dataset)
    (hwf : ∀ c ∈ ds.cols, c.2.length = ds.years.length) (labels : List String) :
    (get_financial_value ds labels).1.length = ds.years.length := by
  rw [get_financial_value]
  exact foldl_resolveStep_length ds hwf labels _ (by simp)

lemma foldl_resolveStep_missing (ds : Dataset) :
    ∀ (labels : List String) (acc : List ℚ × Option String),
      (∀ l ∈ labels, lookupCol ds l = none) →
      labels.foldl (resolveStep ds) acc = acc := by
  intro labels
  induction labels with
  | nil => intro acc _; rfl
  | cons label rest ih =>
    intro acc hmiss
    rw [List.foldl_cons, resolveStep, hmiss label (List.mem_cons_self label rest)]
    exact ih acc (fun l hl => hmiss l (List.mem_cons_of_mem label hl))

lemma zipWith_sub_replicate_zero :
    ∀ (l : List ℚ) (n : ℕ), l.length ≤ n →
      List.zipWith (fun a b => a - b) l (List.replicate n (0 : ℚ)) = l := by
  intro l
  induction l with
  | nil => intro n _; simp
  | cons a l ih =>
    intro n hn
    cases n with
    | zero => simp at hn
    | succ m =>
      rw [List.replicate_succ, List.zipWith_cons_cons, sub_zero,
        ih m (by simpa using hn)]

/-! ## Claim theorems -/

/-- C1: evaluation of the resolver at a dataset with one period and
candidate labels `["A", "B"]`, where column `A` holds `-10` (absolute
sum 10) and column `B` holds `5` (absolute sum 5).  The claim says the
label with the greatest sum of absolute values (`A`) wins; the code
instead returns `B`, because after choosing `A` the running maximum is
the sum of `A`'s raw values (`-10`), not of their absolute values. -/
theorem get_financial_value_picks_smaller_abs_sum :
    absSum [some (-10)] = 10 ∧
    absSum [some 5] = 5 ∧
    get_financial_value
        { years := [2020], cols := [("A", [some (-10)]), ("B", [some 5])] }
        ["A", "B"]
      = ([5], some "B") := by
  refine ⟨by norm_num [absSum], by norm_num [absSum], ?_⟩
  norm_num +decide [get_financial_value, resolveStep, lookupCol, lookupIn, absSum, fillna]

/-- C2 (counterexample): with `discount_rate = -2 ≤ -1` the claimed fatal
`InvalidRateConfiguration` is never raised: the run completes and
produces a full output row, refuting "aborts the entire run ... and
produces no partial output for any year". -/
theorem dcf_analysis_accepts_r_below_neg_one :
    dcf_analysis [((2020 : Int), (100 : ℚ))] (-2) (2/100) 1
      = .ok [{ year := 2020, fcff_millions := 1/10000,
               terminal_value_millions := 2601/50500000,
               npv_millions := -51/1010000 }] := by
  norm_num [dcf_analysis, runYears, mkRow, valuateYear, project, discount_factors,
    discounted_fcffs, discountLoop, pyget, pylast, pydiv, List.range_succ]

/-- C2 (amended): with `discount_rate = terminal_growth_rate`, at least
one historical record and horizon ≥ 1, the run aborts with an unhandled
`ZeroDivisionError` raised inside the first year's computation (at the
terminal-value division, or already at the discounting step when
`r = -1`), and no output rows are produced; there is no up-front
validation and `r ≤ -1` is not rejected. -/
theorem dcf_analysis_r_eq_g_zero_division (records : List (Int × ℚ)) (r g : ℚ) (N : ℕ)
    (hrg : r = g) (hne : records ≠ []) (hN : 1 ≤ N) :
    dcf_analysis records r g N = .error "ZeroDivisionError" := by
  subst hrg
  cases records with
  | nil => exact absurd rfl hne
  | cons rec rest => exact runYears_div_zero rec rest r N hN

/-- C2 (witness): the amended claim at one concrete record with
`r = g = 1/10`. -/
theorem dcf_analysis_r_eq_g_zero_division_witness :
    dcf_analysis [((2020 : Int), (100 : ℚ))] (1/10) (1/10) 1 = .error "ZeroDivisionError" :=
  dcf_analysis_r_eq_g_zero_division [((2020 : Int), (100 : ℚ))] (1/10) (1/10) 1 rfl
    (by simp) (by norm_num)

/-- C3: for `r > -1`, `r ≠ g` and horizon `N ≥ 1`, the terminal value is
the last projected element times `(1+g)/(r-g)`, and its present value is
that divided by `(1+r)^N`: the first component returned by the per-year
computation equals `project(fcff,g,N)[N-1] * (1+g) / (r-g) / (1+r)^N`. -/
theorem terminal_value_pv_formula (fcff r g : ℚ) (N : ℕ)
    (hr : -1 < r) (hg : r ≠ g) (hN : 1 ≤ N) :
    ∃ lastProj tvpv npv,
      (project fcff g N)[N - 1]? = some lastProj ∧
      valuateYear fcff r g N = .ok (tvpv, npv) ∧
      tvpv = lastProj * (1 + g) / (r - g) / (1 + r) ^ N := by
  have hr1 : (1 : ℚ) + r ≠ 0 := ne_zero_of_neg_one_lt hr
  refine ⟨fcff * (1 + g) ^ N, tvPV fcff r g N, npvVal fcff r g N, ?_,
    valuateYear_eq fcff r g N hr1 hg hN, ?_⟩
  · have h1 : N - 1 < N := by omega
    have h2 : N - 1 + 1 = N := by omega
    simp [project, List.getElem?_range h1, h2]
  · rfl

/-- C3 (witness): the formula at `fcff = 100`, `r = 1/10`, `g = 2/100`,
`N = 1`. -/
theorem terminal_value_pv_formula_witness :
    ∃ lastProj tvpv npv,
      (project 100 (2/100) 1)[1 - 1]? = some lastProj ∧
      valuateYear 100 (1/10) (2/100) 1 = .ok (tvpv, npv) ∧
      tvpv = lastProj * (1 + 2/100) / (1/10 - 2/100) / (1 + 1/10) ^ 1 :=
  terminal_value_pv_formula 100 (1/10) (2/100) 1 (by norm_num) (by norm_num) (by norm_num)

/-- C4: for every `fcff`, `N ≥ 0`, `g`, and `r` with `r > -1` and
`r ≠ g`, discounting the projected series succeeds, preserves the
length, and element `j` equals `fcff * ((1+g)/(1+r))^(j+1)`. -/
theorem discount_project_closed_form (fcff g r : ℚ) (N : ℕ)
    (hr : -1 < r) (hg : r ≠ g) :
    ∃ L, discounted_fcffs (project fcff g N) (discount_factors r N) = .ok L ∧
      L.length = (project fcff g N).length ∧
      ∀ j, j < N → L[j]? = some (fcff * ((1 + g) / (1 + r)) ^ (j + 1)) := by
  have hr1 : (1 : ℚ) + r ≠ 0 := ne_zero_of_neg_one_lt hr
  refine ⟨_, discounted_fcffs_ok fcff g r N hr1, by simp [project], ?_⟩
  intro j hj
  have h : fcff * ((1 + g) / (1 + r)) ^ (j + 1)
      = fcff * (1 + g) ^ (j + 1) / (1 + r) ^ (j + 1) := by
    rw [div_pow, mul_div_assoc]
  simp [List.getElem?_range hj, h]

/-- C4 (witness): the discounted projection at `fcff = 100`, `g = 2/100`,
`r = 1/10`, `N = 2`. -/
theorem discount_project_closed_form_witness :
    ∃ L, discounted_fcffs (project 100 (2/100) 2) (discount_factors (1/10) 2) = .ok L ∧
      L.length = (project 100 (2/100) 2).length ∧
      ∀ j, j < 2 → L[j]? = some (100 * ((1 + 2/100) / (1 + 1/10)) ^ (j + 1)) :=
  discount_project_closed_form 100 (2/100) (1/10) 2 (by norm_num) (by norm_num)

/-- C5: for a valid configuration (`r > -1`, `r ≠ g`, `N ≥ 1`) the run
produces exactly one output row per input record, in input order: row `i`
carries the `i`-th record's fiscal year unscaled, its FCFF divided by
1,000,000, and terminal-value PV and NPV divided by 1,000,000, where the
NPV is the sum of the discounted series plus the terminal value's present
value and the terminal value is computed from the last element of the
projected (not discounted) series. -/
theorem dcf_analysis_aggregation (records : List (Int × ℚ)) (r g : ℚ) (N : ℕ)
    (hr : -1 < r) (hg : r ≠ g) (hN : 1 ≤ N) :
    ∃ rows, dcf_analysis records r g N = .ok rows ∧
      rows.length = records.length ∧
      (∀ (i : ℕ) (rec : Int × ℚ), records[i]? = some rec →
        rows[i]? = some
          ({ year := rec.1
             fcff_millions := rec.2 / 1000000
             terminal_value_millions := tvPV rec.2 r g N / 1000000
             npv_millions := npvVal rec.2 r g N / 1000000 } : ValuationRow)) ∧
      (∀ f : ℚ, npvVal f r g N
          = ((List.range N).map fun j => f * (1 + g) ^ (j + 1) / (1 + r) ^ (j + 1)).sum
            + tvPV f r g N) ∧
      (∀ f : ℚ, tvPV f r g N
          = ((project f g N).getLast?.getD 0) * (1 + g) / (r - g) / (1 + r) ^ N) := by
  have hr1 : (1 : ℚ) + r ≠ 0 := ne_zero_of_neg_one_lt hr
  refine ⟨_, runYears_eq r g N hr1 hg hN records, by simp, ?_, fun f => rfl, ?_⟩
  · intro i rec hi
    simp [List.getElem?_map, hi, mkRow]
  · intro f
    rw [project_getLast f g N hN]
    rfl

/-- C5 (witness): the aggregation at two records with `r = 1/10`,
`g = 2/100`, `N = 1`. -/
theorem dcf_analysis_aggregation_witness :
    ∃ rows, dcf_analysis [((2020 : Int), (100 : ℚ)), ((2019 : Int), (50 : ℚ))]
        (1/10) (2/100) 1 = .ok rows ∧
      rows.length = [((2020 : Int), (100 : ℚ)), ((2019 : Int), (50 : ℚ))].length ∧
      (∀ (i : ℕ) (rec : Int × ℚ), [((2020 : Int), (100 : ℚ)), ((2019 : Int), (50 : ℚ))][i]? = some rec →
        rows[i]? = some
          ({ year := rec.1
             fcff_millions := rec.2 / 1000000
             terminal_value_millions := tvPV rec.2 (1/10) (2/100) 1 / 1000000
             npv_millions := npvVal rec.2 (1/10) (2/100) 1 / 1000000 } : ValuationRow)) ∧
      (∀ f : ℚ, npvVal f (1/10) (2/100) 1
          = ((List.range 1).map fun j => f * (1 + 2/100) ^ (j + 1) / (1 + 1/10) ^ (j + 1)).sum
            + tvPV f (1/10) (2/100) 1) ∧
      (∀ f : ℚ, tvPV f (1/10) (2/100) 1
          = ((project f (2/100) 1).getLast?.getD 0) * (1 + 2/100) / (1/10 - 2/100)
            / (1 + 1/10) ^ 1) :=
  dcf_analysis_aggregation [((2020 : Int), (100 : ℚ)), ((2019 : Int), (50 : ℚ))]
    (1/10) (2/100) 1 (by norm_num) (by norm_num) (by norm_num)

/-- C6: projection is a pure function returning a sequence of length `N`
whose element at 0-based index `j` is `fcff * (1+g)^(j+1)`, and the empty
sequence when `N = 0`. -/
theorem project_spec (fcff g : ℚ) (N : ℕ) :
    (project fcff g N).length = N ∧
    (∀ j, j < N → (project fcff g N)[j]? = some (fcff * (1 + g) ^ (j + 1))) ∧
    project fcff g 0 = [] := by
  refine ⟨by simp [project], ?_, by simp [project]⟩
  intro j hj
  simp [project, List.getElem?_range hj]

/-- C6 (witness): the projection contract at `fcff = 100`, `g = 2/100`,
`N = 3`, index `j = 1`. -/
theorem project_spec_witness :
    (project 100 (2/100) 3).length = 3 ∧
    (project 100 (2/100) 3)[1]? = some (100 * (1 + 2/100) ^ (1 + 1)) ∧
    project 100 (2/100) 0 = [] :=
  ⟨(project_spec 100 (2/100) 3).1,
   (project_spec 100 (2/100) 3).2.1 1 (by norm_num),
   (project_spec 100 (2/100) 3).2.2⟩

/-- C7: a concept none of whose candidate labels occurs as a column
resolves to 0 for every period with no chosen label; in particular, with
the capex label absent, the FCFF series equals the resolved cfo series,
and the valuation run still completes (no abort). -/
theorem missing_concept_defaults_zero (ds : Dataset) (labels : List String)
    (hwf : ∀ c ∈ ds.cols, c.2.length = ds.years.length)
    (hmiss : ∀ l ∈ labels, lookupCol ds l = none)
    (hcap : lookupCol ds "PaymentsToAcquirePropertyPlantAndEquipment" = none)
    (r g : ℚ) (N : ℕ) (hr : -1 < r) (hg : r ≠ g) (hN : 1 ≤ N) :
    get_financial_value ds labels = (List.replicate ds.years.length 0, none) ∧
    fcff_series ds = (get_financial_value ds label_variations_cfo).1 ∧
    ∃ rows, dcf_analysis (ds.years.zip (fcff_series ds)) r g N = .ok rows := by
  have hr1 : (1 : ℚ) + r ≠ 0 := ne_zero_of_neg_one_lt hr
  have hcapex : get_financial_value ds label_variations_capex
      = (List.replicate ds.years.length 0, none) := by
    rw [get_financial_value]
    refine foldl_resolveStep_missing ds label_variations_capex _ ?_
    intro l hl
    obtain rfl := List.mem_singleton.mp hl
    exact hcap
  have hfcff : fcff_series ds = (get_financial_value ds label_variations_cfo).1 := by
    rw [fcff_series, hcapex]
    exact zipWith_sub_replicate_zero _ _
      (le_of_eq (get_financial_value_length ds hwf label_variations_cfo))
  refine ⟨?_, hfcff, ⟨_, runYears_eq r g N hr1 hg hN _⟩⟩
  rw [get_financial_value]
  exact foldl_resolveStep_missing ds labels _ hmiss

/-- C7 (witness): a two-period dataset holding only the cfo column, with
no capex column and a probe concept whose label is absent. -/
theorem missing_concept_defaults_zero_witness :
    get_financial_value
        { years := [2020, 2021],
          cols := [("NetCashProvidedByUsedInOperatingActivities", [some 50, none])] }
        ["SomeOtherLabel"]
      = (List.replicate 2 0, none) ∧
    fcff_series
        { years := [2020, 2021],
          cols := [("NetCashProvidedByUsedInOperatingActivities", [some 50, none])] }
      = (get_financial_value
          { years := [2020, 2021],
            cols := [("NetCashProvidedByUsedInOperatingActivities", [some 50, none])] }
          label_variations_cfo).1 ∧
    ∃ rows, dcf_analysis
        (List.zip
          (Dataset.years
            { years := [2020, 2021],
              cols := [("NetCashProvidedByUsedInOperatingActivities", [some 50, none])] })
          (fcff_series
            { years := [2020, 2021],
              cols := [("NetCashProvidedByUsedInOperatingActivities", [some 50, none])] }))
        (1/10) (2/100) 1 = .ok rows :=
  missing_concept_defaults_zero
    { years := [2020, 2021],
      cols := [("NetCashProvidedByUsedInOperatingActivities", [some 50, none])] }
    ["SomeOtherLabel"] (by decide) (by decide) (by decide)
    (1/10) (2/100) 1 (by norm_num) (by norm_num) (by norm_num)

/-- C8: the worked single-year example: `fcff = 100`, `r = 0.10`,
`g = 0.02`, `N = 1` gives projected `[102]`, discounted `[102/1.1]`,
terminal value `102 * 1.02 / 0.08 = 1300.5`, its present value
`1300.5 / 1.1`, and NPV within `1e-2` of `1275.0` (here exactly 1275). -/
theorem single_year_example_values :
    project 100 (2/100) 1 = [102] ∧
    discounted_fcffs (project 100 (2/100) 1) (discount_factors (1/10) 1)
      = .ok [102 / (11/10)] ∧
    valuateYear 100 (1/10) (2/100) 1 = .ok (13005/11, 14025/11) ∧
    (13005/11 : ℚ) = 2601/2 / (11/10) ∧
    (2601/2 : ℚ) = 102 * (102/100) / (8/100) ∧
    |(14025/11 : ℚ) - 1275| ≤ 1/100 := by
  norm_num [valuateYear, project, discount_factors, discounted_fcffs, discountLoop,
    pyget, pylast, pydiv, List.range_succ]

/-- C9: for horizon `N ≥ 1` the projected series and the discount-factor
list both have length `N` and are non-empty, so the `[-1]` accesses in
the terminal-value computation succeed (no `IndexError`). -/
theorem terminal_value_accesses_in_bounds (fcff r g : ℚ) (N : ℕ) (hN : 1 ≤ N) :
    (project fcff g N).length = N ∧ (discount_factors r N).length = N ∧
    (∃ x, pylast (project fcff g N) = .ok x) ∧
    ∃ y, pylast (discount_factors r N) = .ok y := by
  refine ⟨project_length fcff g N, discount_factors_length r N,
    ⟨fcff * (1 + g) ^ N, ?_⟩, ⟨(1 + r) ^ N, ?_⟩⟩
  · rw [pylast, project_getLast fcff g N hN]
  · rw [pylast, discount_factors_getLast r N hN]

/-- C9 (witness): the bounds at `N = 1`. -/
theorem terminal_value_accesses_in_bounds_witness :
    (project 100 (2/100) 1).length = 1 ∧ (discount_factors (1/10) 1).length = 1 ∧
    (∃ x, pylast (project 100 (2/100) 1) = .ok x) ∧
    ∃ y, pylast (discount_factors (1/10) 1) = .ok y :=
  terminal_value_accesses_in_bounds 100 (1/10) (2/100) 1 (by norm_num)

/-- C10: two runs over record collections that agree at index `i`, with
the same `(r, g, N)` and a valid configuration, produce identical rows at
index `i`: each row is a function of that record and the run-wide
parameters only. -/
theorem per_year_noninterference (records1 records2 : List (Int × ℚ)) (r g : ℚ) (N : ℕ)
    (i : ℕ) (rec : Int × ℚ)
    (h1 : records1[i]? = some rec) (h2 : records2[i]? = some rec)
    (hr : -1 < r) (hg : r ≠ g) (hN : 1 ≤ N) :
    ∃ rows1 rows2,
      dcf_analysis records1 r g N = .ok rows1 ∧
      dcf_analysis records2 r g N = .ok rows2 ∧
      rows1[i]? = rows2[i]? ∧
      rows1[i]? = some (mkRow rec (tvPV rec.2 r g N, npvVal rec.2 r g N)) := by
  have hr1 : (1 : ℚ) + r ≠ 0 := ne_zero_of_neg_one_lt hr
  refine ⟨_, _, runYears_eq r g N hr1 hg hN records1,
    runYears_eq r g N hr1 hg hN records2, ?_, ?_⟩
  · simp [List.getElem?_map, h1, h2]
  · simp [List.getElem?_map, h1]

/-- C10 (witness): a one-record collection and a two-record collection
agreeing at index 0. -/
theorem per_year_noninterference_witness :
    ∃ rows1 rows2,
      dcf_analysis [((2020 : Int), (100 : ℚ))] (1/10) (2/100) 1 = .ok rows1 ∧
      dcf_analysis [((2020 : Int), (100 : ℚ)), ((2021 : Int), (7 : ℚ))] (1/10) (2/100) 1
        = .ok rows2 ∧
      rows1[0]? = rows2[0]? ∧
      rows1[0]? = some (mkRow ((2020 : Int), (100 : ℚ))
        (tvPV 100 (1/10) (2/100) 1, npvVal 100 (1/10) (2/100) 1)) :=
  per_year_noninterference [((2020 : Int), (100 : ℚ))]
    [((2020 : Int), (100 : ℚ)), ((2021 : Int), (7 : ℚ))] (1/10) (2/100) 1 0
    ((2020 : Int), (100 : ℚ)) rfl rfl (by norm_num) (by norm_num) (by norm_num)
